import Mathlib

/-!
Verification of the browser Discord client adapter
(`packages/client-browser-discord/src/index.ts`).

The adapter is a single class, `BrowserDiscordManager`, holding
* `agents : Map<string, IAgentRuntime>`,
* `roomStates : Map<string, DiscordRoomState>`,
* `messageHandlers : Set<MessageHandler>`,
* `currentDMChannel : string | null`,
and interval timers created by `setInterval` / cancelled by `clearInterval`.

We embed the class shallowly: the mutable fields become a `ManagerState`
record, the JS `Map`s become association lists, the handler `Set` becomes a
list (handlers fire in insertion order), and every network or store call
becomes an explicit `Except`-valued oracle argument, so each method is a
pure function from a state and its oracle results to a new state plus its
observable effects (handler invocations, whether a network call was issued,
logged errors, returned value / raised error).  Timers are modelled by a
list of live `Timer`s (id plus the room key the `setInterval` closure
polls) together with a fresh-id counter; `clearInterval t` removes the
timer with id `t`.  Methods are taken as atomic steps of a transition
relation, matching the single-threaded event-loop execution model.
-/

namespace BrowserDiscord

/-- A Discord user as the adapter sees it: only `author.bot` is read
(line 97 of the source). -/
structure APIUser where
  bot : Bool
deriving DecidableEq, Repr

/-- A Discord message as the adapter sees it: only `id` and `author.bot`
are read. -/
structure APIMessage where
  id : String
  author : APIUser
deriving DecidableEq, Repr

/-- `interface DiscordRoomState` (source lines 20-25).  The
`voiceConnection` field is never touched by any method modelled here and
is omitted.  `pollingInterval` holds the id of the live interval timer,
when one is installed. -/
structure DiscordRoomState where
  channelId : String
  lastMessageId : Option String := none
  pollingInterval : Option Nat := none
deriving DecidableEq, Repr

/-- `interface MessageHandler` (source lines 27-29): a callback that may
reject; rejection carries an error message. -/
def MessageHandler := APIMessage → Except String Unit

/-- `IAgentRuntime` as consumed by the adapter: only `agentId` is read in
the modelled paths (`messageManager.createMemory` becomes the persist
oracle of `sendMessage`). -/
structure IAgentRuntime where
  agentId : String
deriving DecidableEq, Repr

/-- `Content` of an outbound message: `text` plus optional `inReplyTo`. -/
structure Content where
  text : String
  inReplyTo : Option String := none
deriving DecidableEq, Repr

/-- The nested `content` object of a `Memory` record (source lines
188-192). -/
structure MemoryContent where
  text : String
  source : String
  inReplyTo : Option String
deriving DecidableEq, Repr

/-- The `Memory` record built by `sendMessage` (source lines 183-194). -/
structure Memory where
  id : String
  agentId : String
  userId : String
  roomId : String
  content : MemoryContent
  createdAt : Nat
deriving DecidableEq, Repr

/-- Modelled from the spec: `stringToUuid` is imported from the
`@ai16z/eliza` core package, which is not part of this repository
checkout; the spec says the memory id is "derived deterministically from
the platform's message id".  We model it as a deterministic injective
tagging of the input string; only determinism and the flow of its
argument matter to the claims. -/
def stringToUuid (s : String) : String := "uuid-" ++ s

/-- JS `Map.get`. -/
def lookup {α : Type} (k : String) : List (String × α) → Option α
  | [] => none
  | (k', v) :: rest => if k' = k then some v else lookup k rest

/-- JS `Map.delete`. -/
def eraseKey {α : Type} (k : String) : List (String × α) → List (String × α)
  | [] => []
  | (k', v) :: rest => if k' = k then eraseKey k rest else (k', v) :: eraseKey k rest

/-- JS `Map.set`.  (Position in the list is irrelevant: the adapter never
iterates over its maps, so we put the updated binding in front.) -/
def setKey {α : Type} (k : String) (v : α) (l : List (String × α)) : List (String × α) :=
  (k, v) :: eraseKey k l

theorem lookup_eraseKey_self {α : Type} (k : String) (l : List (String × α)) :
    lookup k (eraseKey k l) = none := by
  induction l with
  | nil => rfl
  | cons p rest ih =>
    obtain ⟨k', v⟩ := p
    by_cases h : k' = k
    · simp [eraseKey, h, ih]
    · simp [eraseKey, lookup, h, ih]

theorem lookup_eraseKey_ne {α : Type} {k k' : String} (h : k ≠ k')
    (l : List (String × α)) : lookup k (eraseKey k' l) = lookup k l := by
  induction l with
  | nil => rfl
  | cons p rest ih =>
    obtain ⟨k'', v⟩ := p
    by_cases h2 : k'' = k'
    · have hne : k' ≠ k := fun hk => h hk.symm
      simp [eraseKey, lookup, h2, hne, ih]
    · by_cases h3 : k'' = k
      · simp [eraseKey, lookup, h2, h3, h, ih]
      · simp [eraseKey, lookup, h2, h3, ih]

theorem lookup_setKey_self {α : Type} (k : String) (v : α) (l : List (String × α)) :
    lookup k (setKey k v l) = some v := by
  simp [setKey, lookup]

theorem lookup_setKey_ne {α : Type} {k k' : String} (h : k ≠ k') (v : α)
    (l : List (String × α)) : lookup k (setKey k' v l) = lookup k l := by
  have hne : k' ≠ k := fun hk => h hk.symm
  simp [setKey, lookup, hne, lookup_eraseKey_ne h]

/-- The inner loop of `handleNewMessages` (source lines 99-105): invoke
every registered handler on one message, catching and logging a rejection
per handler.  `i` is the position of the first handler, so that the
returned invocation events `(handler position, message id)` identify who
was called; the second component collects the logged errors. -/
def runHandlersFrom (i : Nat) (message : APIMessage) :
    List MessageHandler → List (Nat × String) × List String
  | [] => ([], [])
  | h :: rest =>
    let logged : List String :=
      match h message with
      | Except.ok _ => []
      | Except.error e => ["Error in message handler: " ++ e]
    let next := runHandlersFrom (i + 1) message rest
    ((i, message.id) :: next.1, logged ++ next.2)

/-- `handleNewMessages` (source lines 95-107): for each message of the
batch, skip it when `message.author.bot`, otherwise run every handler on
it; a handler error is caught and logged and the iteration continues.
Returns the invocation events in order, and the logged errors. -/
def handleNewMessages (handlers : List MessageHandler) :
    List APIMessage → List (Nat × String) × List String
  | [] => ([], [])
  | message :: rest =>
    if message.author.bot then handleNewMessages handlers rest
    else
      let here := runHandlersFrom 0 message handlers
      let next := handleNewMessages handlers rest
      (here.1 ++ next.1, here.2 ++ next.2)

theorem runHandlersFrom_events (message : APIMessage) (hs : List MessageHandler) :
    ∀ i, (runHandlersFrom i message hs).1 =
      (List.range hs.length).map (fun j => (i + j, message.id)) := by
  induction hs with
  | nil => intro i; simp [runHandlersFrom]
  | cons h rest ih =>
    intro i
    have step : (runHandlersFrom i message (h :: rest)).1 =
        (i, message.id) :: (runHandlersFrom (i + 1) message rest).1 := rfl
    rw [step, ih (i + 1), List.length_cons, List.range_succ_eq_map, List.map_cons,
      List.map_map]
    refine List.cons_eq_cons.mpr ⟨by simp, List.map_congr_left ?_⟩
    intro j _
    simp only [Function.comp_apply, Prod.mk.injEq]
    exact ⟨by omega, trivial⟩

theorem runHandlersFrom_logs (message : APIMessage) (hs : List MessageHandler) :
    ∀ i, (runHandlersFrom i message hs).2 =
      hs.flatMap (fun h =>
        match h message with
        | Except.ok _ => []
        | Except.error e => ["Error in message handler: " ++ e]) := by
  induction hs with
  | nil => intro i; simp [runHandlersFrom]
  | cons h rest ih =>
    intro i
    simp only [runHandlersFrom, List.flatMap_cons, ih (i + 1)]

/-- Every handler is invoked on every non-bot message of the batch, in
batch order then handler order, no matter which handlers reject. -/
theorem handleNewMessages_events (hs : List MessageHandler) (msgs : List APIMessage) :
    (handleNewMessages hs msgs).1 =
      (msgs.filter (fun m => !m.author.bot)).flatMap
        (fun m => (List.range hs.length).map (fun j => (j, m.id))) := by
  induction msgs with
  | nil => rfl
  | cons m rest ih =>
    by_cases hb : m.author.bot
    · simp [handleNewMessages, hb, ih, List.filter_cons]
    · have hev := runHandlersFrom_events m hs 0
      simp only [Nat.zero_add] at hev
      simp [handleNewMessages, hb, ih, List.filter_cons, hev]

theorem handleNewMessages_logs (hs : List MessageHandler) (msgs : List APIMessage) :
    (handleNewMessages hs msgs).2 =
      (msgs.filter (fun m => !m.author.bot)).flatMap
        (fun m => hs.flatMap (fun h =>
          match h m with
          | Except.ok _ => []
          | Except.error e => ["Error in message handler: " ++ e])) := by
  induction msgs with
  | nil => rfl
  | cons m rest ih =>
    by_cases hb : m.author.bot
    · simp [handleNewMessages, hb, ih, List.filter_cons]
    · simp [handleNewMessages, hb, ih, List.filter_cons, runHandlersFrom_logs m hs 0]

/-- A live interval timer: its id (as returned by `setInterval`) and the
room key captured by the `setInterval` closure (the argument it passes to
`pollMessages`). -/
structure Timer where
  id : Nat
  key : String
deriving DecidableEq, Repr

/-- The mutable fields of `BrowserDiscordManager` (source lines 31-37),
plus the bookkeeping of live interval timers: `liveTimers` are the timers
created by `setInterval` and not yet cancelled by `clearInterval`, and
`nextTimer` is the next fresh timer id. -/
structure ManagerState where
  agents : List (String × IAgentRuntime)
  roomStates : List (String × DiscordRoomState)
  messageHandlers : List MessageHandler
  currentDMChannel : Option String
  liveTimers : List Timer
  nextTimer : Nat

/-- `clearInterval` on a timer id: the timer stops being live. -/
def clearTimer (t : Nat) (timers : List Timer) : List Timer :=
  timers.filter (fun tm => tm.id ≠ t)

/-- Lines 134-137 of the source (shared by `setActiveChannel`) and lines
207-210 (shared by `cleanup`): if the room keyed by `k` exists and holds a
timer handle, `clearInterval` it. -/
def clearRoomTimer (roomStates : List (String × DiscordRoomState))
    (liveTimers : List Timer) (k : String) : List Timer :=
  match lookup k roomStates with
  | some s =>
    match s.pollingInterval with
    | some t => clearTimer t liveTimers
    | none => liveTimers
  | none => liveTimers

/-- The hardcoded default direct-message channel id (source line 63). -/
def DM_CHANNEL_ID : String := "202880968556544000"

/-- The URL built by the poll tick's fetch (source line 116): it depends
on the room's `channelId` only — no query parameter derived from
`lastMessageId` is attached. -/
def pollFetchUrl (s : DiscordRoomState) : String :=
  "/api/discord/messages/" ++ s.channelId

/-- Result of one `pollMessages` tick. -/
structure PollOutcome where
  state : ManagerState
  events : List (Nat × String)
  networkCalled : Bool
  logs : List String

/-- `pollMessages` (source lines 109-131).  `fetchResult` is the outcome
of the awaited `fetch`/`response.json()` pair.  If the room is missing or
its channel id is falsy the tick returns before any network call; a fetch
error is caught and logged; a non-empty batch first records
`messages[0].id` as the cursor and then dispatches the reversed batch to
`handleNewMessages`. -/
def pollMessages (st : ManagerState) (key : String)
    (fetchResult : Except String (List APIMessage)) : PollOutcome :=
  match lookup key st.roomStates with
  | none => { state := st, events := [], networkCalled := false, logs := [] }
  | some s =>
    if s.channelId = "" then
      { state := st, events := [], networkCalled := false, logs := [] }
    else
      match fetchResult with
      | Except.error e =>
        { state := st, events := [], networkCalled := true,
          logs := ["Error polling messages: " ++ e] }
      | Except.ok [] =>
        { state := st, events := [], networkCalled := true, logs := [] }
      | Except.ok (m :: rest) =>
        let s' := { s with lastMessageId := some m.id }
        let dispatched := handleNewMessages st.messageHandlers ((m :: rest).reverse)
        { state := { st with roomStates := setKey key s' st.roomStates },
          events := dispatched.1, networkCalled := true, logs := dispatched.2 }

/-- `setActiveChannel` (source lines 133-162).  `seedResult` is the
outcome of the awaited limit-1 history fetch.  The existing timer for the
agent's room is cancelled and the room state replaced by a fresh one bound
to the new channel before the try block; inside the try, the seed fetch
runs, then (only if it did not throw) the cursor is optionally seeded and
the new interval timer installed; the catch only logs.  Returns the new
state and the logged errors; the method itself never rejects. -/
def setActiveChannel (st : ManagerState) (agentId channelId : String)
    (seedResult : Except String (List APIMessage)) : ManagerState × List String :=
  let timers := clearRoomTimer st.roomStates st.liveTimers agentId
  match seedResult with
  | Except.error e =>
    let state : DiscordRoomState := { channelId := channelId }
    ({ st with roomStates := setKey agentId state st.roomStates,
               liveTimers := timers },
     ["Error fetching channel messages: " ++ e])
  | Except.ok messages =>
    let lastId : Option String :=
      match messages with
      | [] => none
      | m :: _ => some m.id
    let state : DiscordRoomState :=
      { channelId := channelId, lastMessageId := lastId,
        pollingInterval := some st.nextTimer }
    ({ st with roomStates := setKey agentId state st.roomStates,
               liveTimers := { id := st.nextTimer, key := agentId } :: timers,
               nextTimer := st.nextTimer + 1 },
     [])

/-- The error conditions `sendMessage` can raise: the guard's
`Error('Agent not found or no active channel')` or a re-raised
transport/store failure. -/
inductive SendError where
  | notFound
  | transport (e : String)
deriving DecidableEq, Repr

/-- Line 167 of the source, `state?.channelId || this.currentDMChannel`,
composed with the `!channelId` guard on line 169: the resolved channel,
`none` when the guard would fire.  JavaScript `||` and `!` treat the empty
string as falsy, which the two inner conditionals reproduce. -/
def resolveChannel (st : ManagerState) (agentId : String) : Option String :=
  let viaState : Option String :=
    match lookup agentId st.roomStates with
    | some s => if s.channelId = "" then st.currentDMChannel else some s.channelId
    | none => st.currentDMChannel
  match viaState with
  | some c => if c = "" then none else some c
  | none => none

/-- Line 197 of the source, `if (state) state.lastMessageId = response.id`:
set the cursor of the agent's room to the sent message's id, when such a
room exists. -/
def updateCursor (roomStates : List (String × DiscordRoomState)) (agentId : String)
    (rid : String) : List (String × DiscordRoomState) :=
  match lookup agentId roomStates with
  | some s => setKey agentId { s with lastMessageId := some rid } roomStates
  | none => roomStates

/-- Result of one `sendMessage` call. -/
structure SendOutcome where
  state : ManagerState
  result : Except SendError Memory
  networkCalled : Bool
  logs : List String

/-- `sendMessage` (source lines 164-204).  `postResult` is the outcome of
the awaited `rest.post`, `persistResult` that of the awaited
`messageManager.createMemory`, and `now` is `Date.now()`.  The guard
throws before any network call; in the try block the message is posted,
the memory record built and persisted, the cursor of the agent's room (if
one exists) set to the response id, and the record returned; the catch
logs and re-throws. -/
def sendMessage (st : ManagerState) (agentId : String) (content : Content)
    (postResult : Except String APIMessage) (persistResult : Except String Unit)
    (now : Nat) : SendOutcome :=
  match lookup agentId st.agents, resolveChannel st agentId with
  | some runtime, some channelId =>
    (match postResult with
     | Except.error e =>
       { state := st, result := Except.error (SendError.transport e),
         networkCalled := true, logs := ["Error sending Discord message: " ++ e] }
     | Except.ok response =>
       let memory : Memory :=
         { id := stringToUuid response.id,
           agentId := runtime.agentId,
           userId := runtime.agentId,
           roomId := stringToUuid channelId,
           content := { text := content.text, source := "discord",
                        inReplyTo := content.inReplyTo },
           createdAt := now }
       match persistResult with
       | Except.error e =>
         { state := st, result := Except.error (SendError.transport e),
           networkCalled := true, logs := ["Error sending Discord message: " ++ e] }
       | Except.ok _ =>
         { state := { st with roomStates := updateCursor st.roomStates agentId response.id },
           result := Except.ok memory, networkCalled := true, logs := [] })
  | _, _ =>
    { state := st, result := Except.error SendError.notFound,
      networkCalled := false, logs := [] }

/-- `cleanup` (source lines 206-214): cancel the agent's room timer if
any, delete its room state and registry entry, and clear the whole handler
set. -/
def cleanup (st : ManagerState) (agentId : String) : ManagerState :=
  { st with liveTimers := clearRoomTimer st.roomStates st.liveTimers agentId,
            roomStates := eraseKey agentId st.roomStates,
            agents := eraseKey agentId st.agents,
            messageHandlers := [] }

/-- `addMessageHandler` (source lines 87-89).  (JS `Set.add` dedups by
object identity; handler identity is extrinsic to the model, so we record
insertion order in a list — no claim depends on duplicate registration.) -/
def addMessageHandler (st : ManagerState) (h : MessageHandler) : ManagerState :=
  { st with messageHandlers := st.messageHandlers ++ [h] }

/-- `removeMessageHandler` (source lines 91-93), deleting the handler at a
given insertion position. -/
def removeMessageHandler (st : ManagerState) (i : Nat) : ManagerState :=
  { st with messageHandlers := st.messageHandlers.eraseIdx i }

/-- The state after the constructor (source lines 39-58) has run:
`registerAgent` fills the registry, and `initializeDMChannel` (whose body
has no await, so it completes before the constructor returns) sets
`currentDMChannel` to the hardcoded id and runs `startPollingDMs`
(source lines 71-81), creating the `"dm"` room with its interval timer. -/
def initState (runtime : IAgentRuntime) : ManagerState :=
  { agents := [(runtime.agentId, runtime)],
    roomStates := [("dm", { channelId := DM_CHANNEL_ID, lastMessageId := none,
                            pollingInterval := some 0 })],
    messageHandlers := [],
    currentDMChannel := some DM_CHANNEL_ID,
    liveTimers := [{ id := 0, key := "dm" }],
    nextTimer := 1 }

/-- One atomic method call on the manager.  Each awaited external call is
resolved by the oracle arguments of the corresponding pure function;
methods execute atomically with respect to one another, matching the
single-threaded event loop. -/
inductive Step : ManagerState → ManagerState → Prop where
  | poll (st : ManagerState) (k : String) (fetch : Except String (List APIMessage)) :
      Step st (pollMessages st k fetch).state
  | setActive (st : ManagerState) (a c : String)
      (seed : Except String (List APIMessage)) :
      Step st (setActiveChannel st a c seed).1
  | send (st : ManagerState) (a : String) (content : Content)
      (post : Except String APIMessage) (persistRes : Except String Unit) (now : Nat) :
      Step st (sendMessage st a content post persistRes now).state
  | clean (st : ManagerState) (a : String) : Step st (cleanup st a)
  | addHandler (st : ManagerState) (h : MessageHandler) :
      Step st (addMessageHandler st h)
  | removeHandler (st : ManagerState) (i : Nat) :
      Step st (removeMessageHandler st i)

/-- States reachable from a freshly constructed manager by method calls. -/
inductive Reachable : ManagerState → Prop where
  | init (runtime : IAgentRuntime) : Reachable (initState runtime)
  | step {st st' : ManagerState} : Reachable st → Step st st' → Reachable st'

/-- Timer bookkeeping invariant, over the fields it reads: live timer ids
are below the fresh-id counter and pairwise distinct; every live timer is
the installed handle of the room it polls; and every installed handle is
live with the matching key. -/
def TimerInvOn (roomStates : List (String × DiscordRoomState))
    (liveTimers : List Timer) (nextTimer : Nat) : Prop :=
  (∀ tm ∈ liveTimers, tm.id < nextTimer) ∧
  liveTimers.Pairwise (fun a b => a.id ≠ b.id) ∧
  (∀ tm ∈ liveTimers, ∃ s, lookup tm.key roomStates = some s ∧
    s.pollingInterval = some tm.id) ∧
  (∀ k s, lookup k roomStates = some s → ∀ t, s.pollingInterval = some t →
    Timer.mk t k ∈ liveTimers)

/-- The timer invariant of a manager state. -/
def TimerInv (st : ManagerState) : Prop :=
  TimerInvOn st.roomStates st.liveTimers st.nextTimer

theorem mem_clearTimer {t : Nat} {timers : List Timer} {tm : Timer} :
    tm ∈ clearTimer t timers ↔ tm ∈ timers ∧ tm.id ≠ t := by
  simp [clearTimer]

theorem clearRoomTimer_eq_none {rs : List (String × DiscordRoomState)}
    {ltm : List Timer} {k : String} (hl : lookup k rs = none) :
    clearRoomTimer rs ltm k = ltm := by
  simp [clearRoomTimer, hl]

theorem clearRoomTimer_eq_noTimer {rs : List (String × DiscordRoomState)}
    {ltm : List Timer} {k : String} {s : DiscordRoomState}
    (hl : lookup k rs = some s) (hp : s.pollingInterval = none) :
    clearRoomTimer rs ltm k = ltm := by
  simp [clearRoomTimer, hl, hp]

theorem clearRoomTimer_eq_clear {rs : List (String × DiscordRoomState)}
    {ltm : List Timer} {k : String} {s : DiscordRoomState} {t : Nat}
    (hl : lookup k rs = some s) (hp : s.pollingInterval = some t) :
    clearRoomTimer rs ltm k = clearTimer t ltm := by
  simp [clearRoomTimer, hl, hp]

theorem clearRoomTimer_subset {rs : List (String × DiscordRoomState)}
    {ltm : List Timer} {k : String} {tm : Timer}
    (h : tm ∈ clearRoomTimer rs ltm k) : tm ∈ ltm := by
  rcases hl : lookup k rs with _ | s
  · rwa [clearRoomTimer_eq_none hl] at h
  · rcases hp : s.pollingInterval with _ | t
    · rwa [clearRoomTimer_eq_noTimer hl hp] at h
    · rw [clearRoomTimer_eq_clear hl hp] at h
      exact (mem_clearTimer.mp h).1

theorem clearRoomTimer_pairwise {rs : List (String × DiscordRoomState)}
    {ltm : List Timer} {k : String}
    (h : ltm.Pairwise (fun a b => a.id ≠ b.id)) :
    (clearRoomTimer rs ltm k).Pairwise (fun a b => a.id ≠ b.id) := by
  rcases hl : lookup k rs with _ | s
  · rwa [clearRoomTimer_eq_none hl]
  · rcases hp : s.pollingInterval with _ | t
    · rwa [clearRoomTimer_eq_noTimer hl hp]
    · rw [clearRoomTimer_eq_clear hl hp]
      exact h.sublist (List.filter_sublist _)

/-- Distinct live timers have distinct ids, so a live timer is determined
by its id. -/
theorem live_id_inj {timers : List Timer}
    (h2 : timers.Pairwise (fun a b => a.id ≠ b.id))
    {x y : Timer} (hx : x ∈ timers) (hy : y ∈ timers) (hid : x.id = y.id) :
    x = y := by
  by_contra hne
  have hsymm : Symmetric (fun a b : Timer => a.id ≠ b.id) := by
    intro p q hpq hqp
    exact hpq hqp.symm
  exact h2.forall hsymm hx hy hne hid

/-- Under the invariant, a timer surviving `clearRoomTimer _ _ k` does not
poll `k`: the only live timer with key `k` is the one held by `k`'s room
state, which is exactly the one cleared. -/
theorem clearRoomTimer_key_ne {rs : List (String × DiscordRoomState)}
    {ltm : List Timer} {nt : Nat} {k : String} {tm : Timer}
    (hinv : TimerInvOn rs ltm nt) (h : tm ∈ clearRoomTimer rs ltm k) :
    tm.key ≠ k := by
  obtain ⟨_, _, h3, _⟩ := hinv
  intro hk
  rcases hl : lookup k rs with _ | s
  · rw [clearRoomTimer_eq_none hl] at h
    obtain ⟨s2, hs2, _⟩ := h3 tm h
    rw [hk, hl] at hs2
    cases hs2
  · rcases hp : s.pollingInterval with _ | t
    · rw [clearRoomTimer_eq_noTimer hl hp] at h
      obtain ⟨s2, hs2, hps⟩ := h3 tm h
      rw [hk, hl] at hs2
      injection hs2 with he
      rw [← he, hp] at hps
      cases hps
    · rw [clearRoomTimer_eq_clear hl hp] at h
      obtain ⟨hmem, hne⟩ := mem_clearTimer.mp h
      obtain ⟨s2, hs2, hps⟩ := h3 tm hmem
      rw [hk, hl] at hs2
      injection hs2 with he
      rw [← he, hp] at hps
      injection hps with ht
      exact hne ht.symm

/-- A live timer of a key other than `k` survives `clearRoomTimer _ _ k`. -/
theorem mem_clearRoomTimer_of_ne {rs : List (String × DiscordRoomState)}
    {ltm : List Timer} {nt : Nat} {a : String}
    (hinv : TimerInvOn rs ltm nt) {tm : Timer} (hmem : tm ∈ ltm)
    (hk : tm.key ≠ a) : tm ∈ clearRoomTimer rs ltm a := by
  obtain ⟨h1, h2, h3, h4⟩ := hinv
  rcases hl : lookup a rs with _ | sa
  · rw [clearRoomTimer_eq_none hl]
    exact hmem
  · rcases hp : sa.pollingInterval with _ | told
    · rw [clearRoomTimer_eq_noTimer hl hp]
      exact hmem
    · rw [clearRoomTimer_eq_clear hl hp, mem_clearTimer]
      refine ⟨hmem, ?_⟩
      intro hid
      have ha : Timer.mk told a ∈ ltm := h4 a sa hl told hp
      have he := live_id_inj h2 hmem ha hid
      rw [he] at hk
      exact hk rfl

/-- Replacing room `a` by a fresh timerless state, having cleared its
timer, preserves the invariant (the failing-seed branch of
`setActiveChannel`). -/
theorem timerInvOn_setActive_error {rs : List (String × DiscordRoomState)}
    {ltm : List Timer} {nt : Nat} (h : TimerInvOn rs ltm nt) (a c : String) :
    TimerInvOn
      (setKey a { channelId := c, lastMessageId := none, pollingInterval := none } rs)
      (clearRoomTimer rs ltm a) nt := by
  obtain ⟨h1, h2, h3, h4⟩ := h
  refine ⟨?_, ?_, ?_, ?_⟩
  · intro tm htm
    exact h1 tm (clearRoomTimer_subset htm)
  · exact clearRoomTimer_pairwise h2
  · intro tm htm
    have hk := clearRoomTimer_key_ne ⟨h1, h2, h3, h4⟩ htm
    rw [lookup_setKey_ne hk]
    exact h3 tm (clearRoomTimer_subset htm)
  · intro k2 s2 hs2 t ht
    by_cases hk : k2 = a
    · subst hk
      rw [lookup_setKey_self] at hs2
      injection hs2 with he
      rw [← he] at ht
      cases ht
    · rw [lookup_setKey_ne hk] at hs2
      exact mem_clearRoomTimer_of_ne ⟨h1, h2, h3, h4⟩ (h4 k2 s2 hs2 t ht) hk

/-- Replacing room `a` by a fresh state holding the fresh timer, having
cleared the old one, preserves the invariant (the successful-seed branch
of `setActiveChannel`). -/
theorem timerInvOn_setActive_ok {rs : List (String × DiscordRoomState)}
    {ltm : List Timer} {nt : Nat} (h : TimerInvOn rs ltm nt) (a c : String)
    (lastId : Option String) :
    TimerInvOn
      (setKey a { channelId := c, lastMessageId := lastId,
                  pollingInterval := some nt } rs)
      (Timer.mk nt a :: clearRoomTimer rs ltm a) (nt + 1) := by
  obtain ⟨h1, h2, h3, h4⟩ := h
  refine ⟨?_, ?_, ?_, ?_⟩
  · intro tm htm
    rcases List.mem_cons.mp htm with he | htl
    · rw [he]
      exact Nat.lt_succ_self nt
    · exact Nat.lt_succ_of_lt (h1 tm (clearRoomTimer_subset htl))
  · refine List.pairwise_cons.mpr ⟨?_, clearRoomTimer_pairwise h2⟩
    intro tm htm
    have := h1 tm (clearRoomTimer_subset htm)
    simp only [Timer.mk.injEq] at *
    omega
  · intro tm htm
    rcases List.mem_cons.mp htm with he | htl
    · refine ⟨{ channelId := c, lastMessageId := lastId,
                pollingInterval := some nt }, ?_, ?_⟩
      · rw [he]
        exact lookup_setKey_self a _ rs
      · rw [he]
    · have hk := clearRoomTimer_key_ne ⟨h1, h2, h3, h4⟩ htl
      rw [lookup_setKey_ne hk]
      exact h3 tm (clearRoomTimer_subset htl)
  · intro k2 s2 hs2 t ht
    by_cases hk : k2 = a
    · subst hk
      rw [lookup_setKey_self] at hs2
      injection hs2 with he
      rw [← he] at ht
      simp only at ht
      injection ht with hte
      exact List.mem_cons.mpr (Or.inl (by rw [hte]))
    · rw [lookup_setKey_ne hk] at hs2
      exact List.mem_cons.mpr
        (Or.inr (mem_clearRoomTimer_of_ne ⟨h1, h2, h3, h4⟩ (h4 k2 s2 hs2 t ht) hk))

/-- Removing room `a` after clearing its timer preserves the invariant
(`cleanup`). -/
theorem timerInvOn_cleanup {rs : List (String × DiscordRoomState)}
    {ltm : List Timer} {nt : Nat} (h : TimerInvOn rs ltm nt) (a : String) :
    TimerInvOn (eraseKey a rs) (clearRoomTimer rs ltm a) nt := by
  obtain ⟨h1, h2, h3, h4⟩ := h
  refine ⟨?_, ?_, ?_, ?_⟩
  · intro tm htm
    exact h1 tm (clearRoomTimer_subset htm)
  · exact clearRoomTimer_pairwise h2
  · intro tm htm
    have hk := clearRoomTimer_key_ne ⟨h1, h2, h3, h4⟩ htm
    rw [lookup_eraseKey_ne hk]
    exact h3 tm (clearRoomTimer_subset htm)
  · intro k2 s2 hs2 t ht
    by_cases hk : k2 = a
    · subst hk
      rw [lookup_eraseKey_self] at hs2
      cases hs2
    · rw [lookup_eraseKey_ne hk] at hs2
      exact mem_clearRoomTimer_of_ne ⟨h1, h2, h3, h4⟩ (h4 k2 s2 hs2 t ht) hk

/-- Setting the cursor of an existing room, timers untouched, preserves
the invariant (the cursor writes of `pollMessages` and `sendMessage`). -/
theorem timerInvOn_update_lastMessageId {rs : List (String × DiscordRoomState)}
    {ltm : List Timer} {nt : Nat} (h : TimerInvOn rs ltm nt)
    {k : String} {s : DiscordRoomState} (hl : lookup k rs = some s)
    (x : Option String) :
    TimerInvOn (setKey k { s with lastMessageId := x } rs) ltm nt := by
  obtain ⟨h1, h2, h3, h4⟩ := h
  refine ⟨h1, h2, ?_, ?_⟩
  · intro tm htm
    by_cases hk : tm.key = k
    · obtain ⟨s2, hs2, hps⟩ := h3 tm htm
      rw [hk, hl] at hs2
      injection hs2 with he
      refine ⟨{ s with lastMessageId := x }, ?_, ?_⟩
      · rw [hk]
        exact lookup_setKey_self k _ rs
      · simp only
        rw [← he] at hps
        exact hps
    · rw [lookup_setKey_ne hk]
      exact h3 tm htm
  · intro k2 s2 hs2 t ht
    by_cases hk : k2 = k
    · subst hk
      rw [lookup_setKey_self] at hs2
      injection hs2 with he
      refine h4 k2 s hl t ?_
      rw [← he] at ht
      simpa using ht
    · rw [lookup_setKey_ne hk] at hs2
      exact h4 k2 s2 hs2 t ht

theorem timerInvOn_updateCursor {rs : List (String × DiscordRoomState)}
    {ltm : List Timer} {nt : Nat} (h : TimerInvOn rs ltm nt) (a rid : String) :
    TimerInvOn (updateCursor rs a rid) ltm nt := by
  rcases hl : lookup a rs with _ | s
  · have he : updateCursor rs a rid = rs := by
      simp [updateCursor, hl]
    rw [he]
    exact h
  · have he : updateCursor rs a rid =
        setKey a { s with lastMessageId := some rid } rs := by
      simp [updateCursor, hl]
    rw [he]
    exact timerInvOn_update_lastMessageId h hl (some rid)

/-! Equation lemmas: the value of each method in each branch of its
control flow, as decided by the map contents and the oracle results. -/

theorem pollMessages_eq_noRoom {st : ManagerState} {k : String}
    (fetch : Except String (List APIMessage)) (hl : lookup k st.roomStates = none) :
    pollMessages st k fetch =
      { state := st, events := [], networkCalled := false, logs := [] } := by
  simp [pollMessages, hl]

theorem pollMessages_eq_emptyChannel {st : ManagerState} {k : String}
    {s : DiscordRoomState} (fetch : Except String (List APIMessage))
    (hl : lookup k st.roomStates = some s) (hch : s.channelId = "") :
    pollMessages st k fetch =
      { state := st, events := [], networkCalled := false, logs := [] } := by
  simp [pollMessages, hl, hch]

theorem pollMessages_eq_fetchError {st : ManagerState} {k : String}
    {s : DiscordRoomState} {e : String} (hl : lookup k st.roomStates = some s)
    (hch : ¬s.channelId = "") :
    pollMessages st k (Except.error e) =
      { state := st, events := [], networkCalled := true,
        logs := ["Error polling messages: " ++ e] } := by
  simp [pollMessages, hl, hch]

theorem pollMessages_eq_emptyBatch {st : ManagerState} {k : String}
    {s : DiscordRoomState} (hl : lookup k st.roomStates = some s)
    (hch : ¬s.channelId = "") :
    pollMessages st k (Except.ok []) =
      { state := st, events := [], networkCalled := true, logs := [] } := by
  simp [pollMessages, hl, hch]

theorem pollMessages_eq_batch {st : ManagerState} {k : String}
    {s : DiscordRoomState} {m : APIMessage} {rest : List APIMessage}
    (hl : lookup k st.roomStates = some s) (hch : ¬s.channelId = "") :
    pollMessages st k (Except.ok (m :: rest)) =
      { state :=
          { st with
              roomStates := setKey k { s with lastMessageId := some m.id }
                st.roomStates },
        events := (handleNewMessages st.messageHandlers ((m :: rest).reverse)).1,
        networkCalled := true,
        logs := (handleNewMessages st.messageHandlers ((m :: rest).reverse)).2 } := by
  simp [pollMessages, hl, hch]

theorem setActiveChannel_eq_error (st : ManagerState) (a c e : String) :
    setActiveChannel st a c (Except.error e) =
      ({ st with
           roomStates := setKey a
             { channelId := c, lastMessageId := none, pollingInterval := none }
             st.roomStates,
           liveTimers := clearRoomTimer st.roomStates st.liveTimers a },
       ["Error fetching channel messages: " ++ e]) := by
  simp [setActiveChannel]

theorem setActiveChannel_eq_ok (st : ManagerState) (a c : String)
    (messages : List APIMessage) :
    setActiveChannel st a c (Except.ok messages) =
      ({ st with
           roomStates := setKey a
             { channelId := c,
               lastMessageId :=
                 match messages with
                 | [] => none
                 | m :: _ => some m.id,
               pollingInterval := some st.nextTimer }
             st.roomStates,
           liveTimers := Timer.mk st.nextTimer a ::
             clearRoomTimer st.roomStates st.liveTimers a,
           nextTimer := st.nextTimer + 1 },
       []) := by
  simp [setActiveChannel]

theorem sendMessage_eq_noAgent {st : ManagerState} {a : String}
    (content : Content) (post : Except String APIMessage)
    (persistRes : Except String Unit) (now : Nat)
    (hr : lookup a st.agents = none) :
    sendMessage st a content post persistRes now =
      { state := st, result := Except.error SendError.notFound,
        networkCalled := false, logs := [] } := by
  simp [sendMessage, hr]

theorem sendMessage_eq_noChannel {st : ManagerState} {a : String}
    (content : Content) (post : Except String APIMessage)
    (persistRes : Except String Unit) (now : Nat)
    (hc : resolveChannel st a = none) :
    sendMessage st a content post persistRes now =
      { state := st, result := Except.error SendError.notFound,
        networkCalled := false, logs := [] } := by
  rcases hr : lookup a st.agents with _ | runtime
  · simp [sendMessage, hr]
  · simp [sendMessage, hr, hc]

theorem sendMessage_eq_postError {st : ManagerState} {a : String}
    {runtime : IAgentRuntime} {c : String} (content : Content) {e : String}
    (persistRes : Except String Unit) (now : Nat)
    (hr : lookup a st.agents = some runtime) (hc : resolveChannel st a = some c) :
    sendMessage st a content (Except.error e) persistRes now =
      { state := st, result := Except.error (SendError.transport e),
        networkCalled := true,
        logs := ["Error sending Discord message: " ++ e] } := by
  simp [sendMessage, hr, hc]

theorem sendMessage_eq_persistError {st : ManagerState} {a : String}
    {runtime : IAgentRuntime} {c : String} (content : Content)
    {response : APIMessage} {e : String} (now : Nat)
    (hr : lookup a st.agents = some runtime) (hc : resolveChannel st a = some c) :
    sendMessage st a content (Except.ok response) (Except.error e) now =
      { state := st, result := Except.error (SendError.transport e),
        networkCalled := true,
        logs := ["Error sending Discord message: " ++ e] } := by
  simp [sendMessage, hr, hc]

theorem sendMessage_eq_ok {st : ManagerState} {a : String}
    {runtime : IAgentRuntime} {c : String} (content : Content)
    {response : APIMessage} (u : Unit) (now : Nat)
    (hr : lookup a st.agents = some runtime) (hc : resolveChannel st a = some c) :
    sendMessage st a content (Except.ok response) (Except.ok u) now =
      { state := { st with roomStates := updateCursor st.roomStates a response.id },
        result := Except.ok
          { id := stringToUuid response.id,
            agentId := runtime.agentId,
            userId := runtime.agentId,
            roomId := stringToUuid c,
            content := { text := content.text, source := "discord",
                         inReplyTo := content.inReplyTo },
            createdAt := now },
        networkCalled := true, logs := [] } := by
  simp [sendMessage, hr, hc]

/-! `TimerInv` holds initially and is preserved by every method call. -/

theorem timerInv_init (runtime : IAgentRuntime) : TimerInv (initState runtime) := by
  refine ⟨?_, ?_, ?_, ?_⟩
  · intro tm htm
    simp only [initState, List.mem_singleton] at htm
    simp [htm, initState]
  · simp [initState]
  · intro tm htm
    simp only [initState, List.mem_singleton] at htm
    subst htm
    refine ⟨{ channelId := DM_CHANNEL_ID, lastMessageId := none,
              pollingInterval := some 0 }, ?_, rfl⟩
    simp [initState, lookup]
  · intro k s hs t ht
    simp only [initState, lookup] at hs
    by_cases hk : "dm" = k
    · rw [if_pos hk] at hs
      injection hs with he
      rw [← he] at ht
      simp only at ht
      injection ht with hte
      simp [initState, ← hte, ← hk]
    · rw [if_neg hk] at hs
      cases hs

theorem timerInv_pollMessages (st : ManagerState) (k : String)
    (fetch : Except String (List APIMessage)) (h : TimerInv st) :
    TimerInv (pollMessages st k fetch).state := by
  rcases hl : lookup k st.roomStates with _ | s
  · rw [pollMessages_eq_noRoom fetch hl]
    exact h
  · by_cases hch : s.channelId = ""
    · rw [pollMessages_eq_emptyChannel fetch hl hch]
      exact h
    · rcases fetch with e | msgs
      · rw [pollMessages_eq_fetchError hl hch]
        exact h
      · rcases msgs with _ | ⟨m, rest⟩
        · rw [pollMessages_eq_emptyBatch hl hch]
          exact h
        · rw [pollMessages_eq_batch hl hch]
          exact timerInvOn_update_lastMessageId h hl (some m.id)

theorem timerInv_setActiveChannel (st : ManagerState) (a c : String)
    (seed : Except String (List APIMessage)) (h : TimerInv st) :
    TimerInv (setActiveChannel st a c seed).1 := by
  rcases seed with e | messages
  · rw [setActiveChannel_eq_error]
    exact timerInvOn_setActive_error h a c
  · rw [setActiveChannel_eq_ok]
    exact timerInvOn_setActive_ok h a c _

theorem timerInv_sendMessage (st : ManagerState) (a : String) (content : Content)
    (post : Except String APIMessage) (persistRes : Except String Unit) (now : Nat)
    (h : TimerInv st) :
    TimerInv (sendMessage st a content post persistRes now).state := by
  rcases hr : lookup a st.agents with _ | runtime
  · rw [sendMessage_eq_noAgent content post persistRes now hr]
    exact h
  · rcases hc : resolveChannel st a with _ | c
    · rw [sendMessage_eq_noChannel content post persistRes now hc]
      exact h
    · rcases post with e | response
      · rw [sendMessage_eq_postError content persistRes now hr hc]
        exact h
      · rcases persistRes with e | u
        · rw [sendMessage_eq_persistError content now hr hc]
          exact h
        · rw [sendMessage_eq_ok content u now hr hc]
          exact timerInvOn_updateCursor h a response.id

theorem timerInv_cleanup (st : ManagerState) (a : String) (h : TimerInv st) :
    TimerInv (cleanup st a) :=
  timerInvOn_cleanup h a

theorem timerInv_step {st st' : ManagerState} (h : TimerInv st) (hs : Step st st') :
    TimerInv st' := by
  cases hs with
  | poll k fetch => exact timerInv_pollMessages st k fetch h
  | setActive a c seed => exact timerInv_setActiveChannel st a c seed h
  | send a content post persistRes now =>
    exact timerInv_sendMessage st a content post persistRes now h
  | clean a => exact timerInv_cleanup st a h
  | addHandler hh => exact h
  | removeHandler i => exact h

theorem reachable_timerInv {st : ManagerState} (h : Reachable st) : TimerInv st := by
  induction h with
  | init runtime => exact timerInv_init runtime
  | step hr hstep ih => exact timerInv_step ih hstep

/-- Projection equations of `cleanup`. -/
theorem cleanup_liveTimers (st : ManagerState) (a : String) :
    (cleanup st a).liveTimers = clearRoomTimer st.roomStates st.liveTimers a := rfl

theorem cleanup_roomStates (st : ManagerState) (a : String) :
    (cleanup st a).roomStates = eraseKey a st.roomStates := rfl

theorem cleanup_agents (st : ManagerState) (a : String) :
    (cleanup st a).agents = eraseKey a st.agents := rfl

/-- Under the invariant, at most one live timer polls any given key. -/
theorem timers_per_key_le_one {rs : List (String × DiscordRoomState)}
    {ltm : List Timer} {nt : Nat} (h : TimerInvOn rs ltm nt) (k : String) :
    (ltm.filter (fun tm => tm.key == k)).length ≤ 1 := by
  obtain ⟨h1, h2, h3, h4⟩ := h
  rcases hfl : ltm.filter (fun tm => tm.key == k) with _ | ⟨x, _ | ⟨y, rest2⟩⟩
  · rw [hfl]
    simp
  · rw [hfl]
    simp
  · exfalso
    have hx : x ∈ ltm.filter (fun tm => tm.key == k) := by
      rw [hfl]
      exact List.mem_cons_self _ _
    have hy : y ∈ ltm.filter (fun tm => tm.key == k) := by
      rw [hfl]
      exact List.mem_cons.mpr (Or.inr (List.mem_cons_self _ _))
    have hxl := List.mem_of_mem_filter hx
    have hyl := List.mem_of_mem_filter hy
    have hkx : x.key = k := by simpa using List.of_mem_filter hx
    have hky : y.key = k := by simpa using List.of_mem_filter hy
    obtain ⟨sx, hsx, hpsx⟩ := h3 x hxl
    obtain ⟨sy, hsy, hpsy⟩ := h3 y hyl
    rw [hkx] at hsx
    rw [hky] at hsy
    rw [hsx] at hsy
    injection hsy with hse
    rw [← hse] at hpsy
    rw [hpsx] at hpsy
    injection hpsy with hid
    have hxy := live_id_inj h2 hxl hyl hid
    have hnd : ltm.Nodup :=
      h2.imp (fun hab he => hab (congrArg Timer.id he))
    have hndf := hnd.filter (fun tm => tm.key == k)
    rw [hfl, hxy] at hndf
    simp at hndf

/-! Concrete states and inputs used for witnesses and counterexamples. -/

/-- A handler that always resolves. -/
def okHandler : MessageHandler := fun _ => Except.ok ()

/-- A handler that always rejects. -/
def badHandler : MessageHandler := fun _ => Except.error "boom"

/-- A manager with one agent whose room is bound to channel `"chan"`,
with one registered handler and no recorded cursor. -/
def scenarioState : ManagerState :=
  { agents := [("agent1", IAgentRuntime.mk "agent1")],
    roomStates := [("agent1",
      { channelId := "chan", lastMessageId := none, pollingInterval := some 0 })],
    messageHandlers := [okHandler],
    currentDMChannel := some DM_CHANNEL_ID,
    liveTimers := [Timer.mk 0 "agent1"],
    nextTimer := 1 }

/-- The spec's scenario batch, newest first: ids `"3"` (human), `"2"`
(bot), `"1"` (human). -/
def scenarioBatch : List APIMessage :=
  [ { id := "3", author := { bot := false } },
    { id := "2", author := { bot := true } },
    { id := "1", author := { bot := false } } ]

/-- Like `scenarioState`, but the cursor already records message `"1"`. -/
def seenState : ManagerState :=
  { agents := [("agent1", IAgentRuntime.mk "agent1")],
    roomStates := [("agent1",
      { channelId := "chan", lastMessageId := some "1", pollingInterval := some 0 })],
    messageHandlers := [okHandler],
    currentDMChannel := some DM_CHANNEL_ID,
    liveTimers := [Timer.mk 0 "agent1"],
    nextTimer := 1 }

/-- A manager with no agents, rooms or default channel. -/
def emptyState : ManagerState :=
  { agents := [], roomStates := [], messageHandlers := [],
    currentDMChannel := none, liveTimers := [], nextTimer := 0 }

/-- C6: in every reachable state there is at most one live polling timer
per room key; moreover `setActiveChannel` cancels the timer previously
installed for the agent's room (no surviving timer has the old handle's
id), and `cleanup` does the same when removing the room.  The
direct-message bootstrap runs only inside the constructor, i.e. in
`initState`, where no prior timer exists. -/
theorem claim_C6_timer_uniqueness :
    (∀ st, Reachable st → ∀ k,
      (st.liveTimers.filter (fun tm => tm.key == k)).length ≤ 1) ∧
    (∀ st, Reachable st →
      ∀ (a c : String) (seed : Except String (List APIMessage))
        (s : DiscordRoomState) (t : Nat),
        lookup a st.roomStates = some s → s.pollingInterval = some t →
        ∀ tm ∈ (setActiveChannel st a c seed).1.liveTimers, tm.id ≠ t) ∧
    (∀ (st : ManagerState) (a : String) (s : DiscordRoomState) (t : Nat),
      lookup a st.roomStates = some s → s.pollingInterval = some t →
      ∀ tm ∈ (cleanup st a).liveTimers, tm.id ≠ t) := by
  refine ⟨?_, ?_, ?_⟩
  · intro st hst k
    exact timers_per_key_le_one (reachable_timerInv hst) k
  · intro st hst a c seed s t hl hp tm htm
    have hinv := reachable_timerInv hst
    rcases seed with e | messages
    · simp only [setActiveChannel_eq_error] at htm
      rw [clearRoomTimer_eq_clear hl hp] at htm
      exact (mem_clearTimer.mp htm).2
    · simp only [setActiveChannel_eq_ok] at htm
      rcases List.mem_cons.mp htm with he | htl
    -- the fresh timer has a fresh id, above every live id including `t`
      · obtain ⟨h1, _, _, h4⟩ := hinv
        have hlive : Timer.mk t a ∈ st.liveTimers := h4 a s hl t hp
        have hlt := h1 _ hlive
        rw [he]
        simp only
        intro hcontra
        rw [hcontra] at hlt
        exact Nat.lt_irrefl t hlt
      · rw [clearRoomTimer_eq_clear hl hp] at htl
        exact (mem_clearTimer.mp htl).2
  · intro st a s t hl hp tm htm
    rw [cleanup_liveTimers, clearRoomTimer_eq_clear hl hp] at htm
    exact (mem_clearTimer.mp htm).2

/-- C6 witness: on the freshly constructed manager (one live timer, for
the `"dm"` room) the per-key bound holds, and neither a channel switch
nor a cleanup of `"dm"` leaves its old timer (id 0) alive. -/
theorem claim_C6_witness :
    (((initState (IAgentRuntime.mk "r")).liveTimers.filter
        (fun tm => tm.key == "dm")).length ≤ 1) ∧
    Timer.mk 0 "dm" ∉ (setActiveChannel (initState (IAgentRuntime.mk "r")) "dm" "c"
      (Except.error "x")).1.liveTimers ∧
    Timer.mk 0 "dm" ∉ (cleanup (initState (IAgentRuntime.mk "r")) "dm").liveTimers := by
  refine ⟨?_, ?_, ?_⟩
  · exact claim_C6_timer_uniqueness.1 _ (Reachable.init _) "dm"
  · intro hmem
    exact claim_C6_timer_uniqueness.2.1 _ (Reachable.init _) "dm" "c" (Except.error "x")
      { channelId := DM_CHANNEL_ID, lastMessageId := none, pollingInterval := some 0 }
      0 (by decide) rfl _ hmem rfl
  · intro hmem
    exact claim_C6_timer_uniqueness.2.2 _ "dm"
      { channelId := DM_CHANNEL_ID, lastMessageId := none, pollingInterval := some 0 }
      0 (by decide) rfl _ hmem rfl

/-- C3: on a non-empty batch (delivered newest first), the poll tick sets
the room's cursor to the first item's id, and the handler invocation
events are exactly one invocation of every registered handler for every
non-bot message, in chronological (reversed) order — whatever the
handlers' outcomes. -/
theorem claim_C3_cursor_and_dispatch (st : ManagerState) (k : String)
    (m : APIMessage) (rest : List APIMessage) (s : DiscordRoomState)
    (hl : lookup k st.roomStates = some s) (hch : ¬s.channelId = "") :
    (lookup k (pollMessages st k (Except.ok (m :: rest))).state.roomStates).map
        (fun s2 => s2.lastMessageId) = some (some m.id) ∧
    (pollMessages st k (Except.ok (m :: rest))).events =
      ((m :: rest).reverse.filter (fun x => !x.author.bot)).flatMap
        (fun x => (List.range st.messageHandlers.length).map (fun j => (j, x.id))) := by
  constructor
  · simp only [pollMessages_eq_batch hl hch]
    rw [lookup_setKey_self]
    rfl
  · simp only [pollMessages_eq_batch hl hch]
    exact handleNewMessages_events _ _

/-- C3 witness: the spec's scenario.  Batch `[3 (human), 2 (bot), 1
(human)]` newest first, one handler: the handler fires for `"1"` then
`"3"` only, and the cursor becomes `"3"`. -/
theorem claim_C3_witness :
    (pollMessages scenarioState "agent1" (Except.ok scenarioBatch)).events =
      [(0, "1"), (0, "3")] ∧
    (lookup "agent1" (pollMessages scenarioState "agent1"
        (Except.ok scenarioBatch)).state.roomStates).map
      (fun s2 => s2.lastMessageId) = some (some "3") := by
  have h := claim_C3_cursor_and_dispatch scenarioState "agent1"
    { id := "3", author := { bot := false } }
    [ { id := "2", author := { bot := true } },
      { id := "1", author := { bot := false } } ]
    { channelId := "chan", lastMessageId := none, pollingInterval := some 0 }
    (by decide) (by decide)
  exact ⟨h.2.trans (by decide), h.1⟩

/-- C7: in a batch dispatch, every registered handler is invoked on every
non-bot message, in batch order then registration order, regardless of
which handlers reject — a rejection is logged per handler and stops
nothing; consequently any two handler lists of the same length produce
the same invocation events. -/
theorem claim_C7_handler_failure_isolated (hs : List MessageHandler)
    (msgs : List APIMessage) :
    ((handleNewMessages hs msgs).1 =
      (msgs.filter (fun m => !m.author.bot)).flatMap
        (fun m => (List.range hs.length).map (fun j => (j, m.id)))) ∧
    (∀ hs2 : List MessageHandler, hs2.length = hs.length →
      (handleNewMessages hs2 msgs).1 = (handleNewMessages hs msgs).1) := by
  refine ⟨handleNewMessages_events hs msgs, ?_⟩
  intro hs2 hlen
  rw [handleNewMessages_events hs2 msgs, handleNewMessages_events hs msgs, hlen]

/-- C7 witness: a handler that always rejects is invoked on exactly the
same messages, in the same order, as one that always resolves. -/
theorem claim_C7_witness :
    (handleNewMessages [badHandler] scenarioBatch).1 = [(0, "3"), (0, "1")] ∧
    (handleNewMessages [okHandler] scenarioBatch).1 =
      (handleNewMessages [badHandler] scenarioBatch).1 := by
  have h := claim_C7_handler_failure_isolated [badHandler] scenarioBatch
  exact ⟨h.1.trans (by decide), h.2 [okHandler] rfl⟩

/-- C1 counterexample: the claim fails on the code.  In `seenState` the
room's cursor already records message `"1"` as seen (and dispatched), yet
when the endpoint returns that same message again on a later tick, the
tick dispatches it to the handler once more — the fetch (line 116) sends
no cursor-derived parameter and the returned batch is not filtered
against `lastMessageId`. -/
theorem claim_C1_counterexample :
    (lookup "agent1" seenState.roomStates).map (fun s => s.lastMessageId) =
      some (some "1") ∧
    (pollMessages seenState "agent1"
        (Except.ok [{ id := "1", author := { bot := false } }])).events =
      [(0, "1")] := by
  decide

/-- `st` with room `k`'s state replaced by `s` carrying cursor `x` (used
to compare poll ticks that differ only in the recorded cursor). -/
def withRoomCursor (st : ManagerState) (k : String) (s : DiscordRoomState)
    (x : Option String) : ManagerState :=
  { st with roomStates := setKey k { s with lastMessageId := x } st.roomStates }

/-- C1 (amended): the poll tick's fetch requests the channel's recent
messages without using the recorded cursor — the request URL and the
dispatched events are unchanged when the room's `lastMessageId` is
replaced by any other value.  The cursor is recorded from each non-empty
batch but never read back, so an already-dispatched message is dispatched
again whenever the endpoint returns it again. -/
theorem claim_C1_fetch_ignores_cursor (st : ManagerState) (k : String)
    (fetch : Except String (List APIMessage)) (s : DiscordRoomState)
    (x : Option String) (hl : lookup k st.roomStates = some s) :
    pollFetchUrl { s with lastMessageId := x } = pollFetchUrl s ∧
    (pollMessages (withRoomCursor st k s x) k fetch).events =
      (pollMessages st k fetch).events := by
  constructor
  · rfl
  · have hl2 : lookup k (withRoomCursor st k s x).roomStates =
        some { s with lastMessageId := x } :=
      lookup_setKey_self k _ st.roomStates
    by_cases hch : s.channelId = ""
    · have hch2 : ({ s with lastMessageId := x } : DiscordRoomState).channelId = "" := hch
      rw [pollMessages_eq_emptyChannel fetch hl2 hch2,
        pollMessages_eq_emptyChannel fetch hl hch]
    · have hch2 : ¬({ s with lastMessageId := x } : DiscordRoomState).channelId = "" := hch
      rcases fetch with e | msgs
      · rw [pollMessages_eq_fetchError hl2 hch2, pollMessages_eq_fetchError hl hch]
      · rcases msgs with _ | ⟨m, rest⟩
        · rw [pollMessages_eq_emptyBatch hl2 hch2, pollMessages_eq_emptyBatch hl hch]
        · rw [pollMessages_eq_batch hl2 hch2, pollMessages_eq_batch hl hch]
          rfl

/-- C1 witness: concretely, whether `scenarioState`'s room has no cursor
or cursor `"1"`, the tick on a batch holding message `"1"` dispatches
identically. -/
theorem claim_C1_witness :
    (pollMessages
        (withRoomCursor scenarioState "agent1"
          { channelId := "chan", lastMessageId := none, pollingInterval := some 0 }
          (some "1"))
        "agent1" (Except.ok [{ id := "1", author := { bot := false } }])).events =
      (pollMessages scenarioState "agent1"
        (Except.ok [{ id := "1", author := { bot := false } }])).events :=
  (claim_C1_fetch_ignores_cursor scenarioState "agent1"
    (Except.ok [{ id := "1", author := { bot := false } }])
    { channelId := "chan", lastMessageId := none, pollingInterval := some 0 }
    (some "1") (by decide)).2

/-- C2 counterexample: the claim fails on the code.  When the seed fetch
of `setActiveChannel` fails, the catch block is entered before the
`setInterval` call (which sits inside the try, after the awaited fetch),
so no polling timer is installed for the agent's room: the fresh room
state has no timer handle and the only live timer is still the
constructor's `"dm"` one. -/
theorem claim_C2_counterexample :
    (lookup "a" (setActiveChannel (initState (IAgentRuntime.mk "r")) "a" "chan"
        (Except.error "network down")).1.roomStates).map
      (fun s => s.pollingInterval) = some none ∧
    (setActiveChannel (initState (IAgentRuntime.mk "r")) "a" "chan"
        (Except.error "network down")).1.liveTimers = [Timer.mk 0 "dm"] := by
  decide

/-- C2 (amended): `setActiveChannel` never rejects — a seed-fetch failure
is only logged — and it always replaces the agent's room state with one
bound to the new channel; but the new polling timer is installed exactly
when the seed fetch succeeded: on failure the room is left with no timer. -/
theorem claim_C2_timer_iff_seed_ok (st : ManagerState) (a c : String)
    (seed : Except String (List APIMessage)) :
    (lookup a (setActiveChannel st a c seed).1.roomStates).map
        (fun s => (s.channelId, s.pollingInterval.isSome)) =
      some (c, seed.isOk) ∧
    (setActiveChannel st a c seed).2 =
      (match seed with
       | Except.error e => ["Error fetching channel messages: " ++ e]
       | Except.ok _ => []) := by
  rcases seed with e | messages
  · constructor
    · simp only [setActiveChannel_eq_error]
      rw [lookup_setKey_self]
      rfl
    · simp only [setActiveChannel_eq_error]
  · constructor
    · simp only [setActiveChannel_eq_ok]
      rw [lookup_setKey_self]
      rfl
    · simp only [setActiveChannel_eq_ok]

theorem lookup_mem {α : Type} {k : String} {v : α} {l : List (String × α)}
    (h : lookup k l = some v) : (k, v) ∈ l := by
  induction l with
  | nil => cases h
  | cons p rest ih =>
    obtain ⟨k', v'⟩ := p
    simp only [lookup] at h
    by_cases hk : k' = k
    · rw [if_pos hk] at h
      injection h with he
      rw [← hk, ← he]
      exact List.mem_cons_self _ _
    · rw [if_neg hk] at h
      exact List.mem_cons_of_mem _ (ih h)

/-- When every stored channel id is non-empty (as Discord snowflakes
are), the channel fails to resolve exactly when the agent has no room
state and there is no default DM channel. -/
theorem resolveChannel_none_iff {st : ManagerState} {a : String}
    (hne : ∀ p ∈ st.roomStates, (p.2).channelId ≠ "")
    (hdm : st.currentDMChannel ≠ some "") :
    resolveChannel st a = none ↔
      (lookup a st.roomStates = none ∧ st.currentDMChannel = none) := by
  rcases hl : lookup a st.roomStates with _ | s
  · rcases hd : st.currentDMChannel with _ | c
    · simp [resolveChannel, hl, hd]
    · have hc : c ≠ "" := by
        intro he
        exact hdm (by rw [hd, he])
      simp [resolveChannel, hl, hd, hc]
  · have hsne : s.channelId ≠ "" := hne (a, s) (lookup_mem hl)
    simp [resolveChannel, hl, hsne]

/-- C4: provided channel ids are non-empty strings, `sendMessage` raises
the "Agent not found or no active channel" condition with no network call
exactly when no runtime is registered for the agent, or neither a room
state for the agent nor the default DM channel exists. -/
theorem claim_C4_notFound_iff (st : ManagerState) (a : String) (content : Content)
    (post : Except String APIMessage) (persistRes : Except String Unit) (now : Nat)
    (hne : ∀ p ∈ st.roomStates, (p.2).channelId ≠ "")
    (hdm : st.currentDMChannel ≠ some "") :
    ((sendMessage st a content post persistRes now).result =
        Except.error SendError.notFound ∧
      (sendMessage st a content post persistRes now).networkCalled = false) ↔
    (lookup a st.agents = none ∨
      (lookup a st.roomStates = none ∧ st.currentDMChannel = none)) := by
  rcases hr : lookup a st.agents with _ | runtime
  · rw [sendMessage_eq_noAgent content post persistRes now hr]
    simp
  · rcases hc : resolveChannel st a with _ | c
    · rw [sendMessage_eq_noChannel content post persistRes now hc]
      have hrc := (resolveChannel_none_iff hne hdm).mp hc
      simp [hrc]
    · have hrhs : ¬(some runtime = none ∨
          (lookup a st.roomStates = none ∧ st.currentDMChannel = none)) := by
        rintro (h1 | h2)
        · cases h1
        · rw [(resolveChannel_none_iff hne hdm).mpr h2] at hc
          cases hc
      rcases post with e | response
      · rw [sendMessage_eq_postError content persistRes now hr hc]
        constructor
        · rintro ⟨h1, h2⟩
          injection h1 with h1'
          cases h1'
        · intro h
          exact absurd h hrhs
      · rcases persistRes with e | u
        · rw [sendMessage_eq_persistError content now hr hc]
          constructor
          · rintro ⟨h1, h2⟩
            injection h1 with h1'
            cases h1'
          · intro h
            exact absurd h hrhs
        · rw [sendMessage_eq_ok content u now hr hc]
          constructor
          · rintro ⟨h1, h2⟩
            cases h1
          · intro h
            exact absurd h hrhs

/-- C4 witness: on the empty manager (no agents, no rooms, no DM
channel), `sendMessage` raises the not-found condition and issues no
network call. -/
theorem claim_C4_witness :
    (sendMessage emptyState "a" { text := "hi", inReplyTo := none }
        (Except.error "net") (Except.ok ()) 0).result =
      Except.error SendError.notFound ∧
    (sendMessage emptyState "a" { text := "hi", inReplyTo := none }
        (Except.error "net") (Except.ok ()) 0).networkCalled = false :=
  (claim_C4_notFound_iff emptyState "a" { text := "hi", inReplyTo := none }
    (Except.error "net") (Except.ok ()) 0
    (by intro p hp; cases hp) (by decide)).mpr (Or.inl (by decide))

/-- C5: on a successful send (post and persist both succeed), the
returned memory record's `roomId` is derived from the resolved channel
and its `id` from the platform response's message id (both through the
deterministic `stringToUuid`), and if the agent has a room state its
cursor is updated to the just-sent message's id. -/
theorem claim_C5_success_updates_cursor (st : ManagerState) (a : String)
    (content : Content) (response : APIMessage) (now : Nat)
    (runtime : IAgentRuntime) (c : String)
    (hr : lookup a st.agents = some runtime) (hc : resolveChannel st a = some c) :
    ((sendMessage st a content (Except.ok response) (Except.ok ()) now).result.toOption.map
        (fun mem => mem.roomId) = some (stringToUuid c)) ∧
    ((sendMessage st a content (Except.ok response) (Except.ok ()) now).result.toOption.map
        (fun mem => mem.id) = some (stringToUuid response.id)) ∧
    (∀ s, lookup a st.roomStates = some s →
      lookup a (sendMessage st a content (Except.ok response)
          (Except.ok ()) now).state.roomStates =
        some { s with lastMessageId := some response.id }) := by
  refine ⟨?_, ?_, ?_⟩
  · rw [sendMessage_eq_ok content () now hr hc]
    rfl
  · rw [sendMessage_eq_ok content () now hr hc]
    rfl
  · intro s hs
    rw [sendMessage_eq_ok content () now hr hc]
    show lookup a (updateCursor st.roomStates a response.id) = _
    rw [updateCursor, hs]
    exact lookup_setKey_self a _ st.roomStates

/-- C5 witness: sending from `scenarioState` (room bound to `"chan"`)
with platform response id `"9"` returns a record tagged with `"chan"`'s
derived room id and updates the cursor to `"9"`. -/
theorem claim_C5_witness :
    ((sendMessage scenarioState "agent1" { text := "hello", inReplyTo := none }
        (Except.ok { id := "9", author := { bot := true } })
        (Except.ok ()) 5).result.toOption.map
      (fun mem => mem.roomId) = some (stringToUuid "chan")) ∧
    (lookup "agent1" (sendMessage scenarioState "agent1"
        { text := "hello", inReplyTo := none }
        (Except.ok { id := "9", author := { bot := true } })
        (Except.ok ()) 5).state.roomStates).map
      (fun s => s.lastMessageId) = some (some "9") := by
  have h := claim_C5_success_updates_cursor scenarioState "agent1"
    { text := "hello", inReplyTo := none }
    { id := "9", author := { bot := true } } 5 (IAgentRuntime.mk "agent1") "chan"
    (by decide) (by decide)
  refine ⟨h.1, ?_⟩
  rw [h.2.2 { channelId := "chan", lastMessageId := none, pollingInterval := some 0 }
    (by decide)]
  rfl

/-- C10: when the send reached the network stage (agent and channel
resolved) and either the HTTP post or the memory-store persist fails, the
error is logged and re-raised as-is, and the room-state map — in
particular the room's last-seen cursor — is exactly as before the call:
the cursor write happens only after a successful persist. -/
theorem claim_C10_failure_preserves_cursor (st : ManagerState) (a : String)
    (content : Content) (post : Except String APIMessage)
    (persistRes : Except String Unit) (now : Nat) (runtime : IAgentRuntime)
    (c e : String)
    (hr : lookup a st.agents = some runtime) (hc : resolveChannel st a = some c)
    (hfail : post = Except.error e ∨
      ((∃ r, post = Except.ok r) ∧ persistRes = Except.error e)) :
    (sendMessage st a content post persistRes now).result =
        Except.error (SendError.transport e) ∧
    (sendMessage st a content post persistRes now).logs =
        ["Error sending Discord message: " ++ e] ∧
    (sendMessage st a content post persistRes now).state.roomStates =
        st.roomStates := by
  rcases hfail with hpe | ⟨⟨r, hpr⟩, hse⟩
  · subst hpe
    rw [sendMessage_eq_postError content persistRes now hr hc]
    exact ⟨rfl, rfl, rfl⟩
  · subst hpr
    subst hse
    rw [sendMessage_eq_persistError content now hr hc]
    exact ⟨rfl, rfl, rfl⟩

/-- C10 witness: a failing post from `scenarioState` re-raises the
transport error and leaves the room-state map unchanged. -/
theorem claim_C10_witness :
    (sendMessage scenarioState "agent1" { text := "x", inReplyTo := none }
        (Except.error "net") (Except.ok ()) 0).result =
      Except.error (SendError.transport "net") ∧
    (sendMessage scenarioState "agent1" { text := "x", inReplyTo := none }
        (Except.error "net") (Except.ok ()) 0).state.roomStates =
      scenarioState.roomStates := by
  have h := claim_C10_failure_preserves_cursor scenarioState "agent1"
    { text := "x", inReplyTo := none } (Except.error "net") (Except.ok ()) 0
    (IAgentRuntime.mk "agent1") "chan" "net" (by decide) (by decide) (Or.inl rfl)
  exact ⟨h.1, h.2.2⟩

/-- C8: `cleanup` removes the agent from the registry and the room-state
map, and any subsequent `sendMessage` for that agent raises the not-found
condition without a network call (the runtime lookup fails first, whatever
channel could still be resolved). -/
theorem claim_C8_cleanup_removes_agent (st : ManagerState) (a : String) :
    lookup a (cleanup st a).agents = none ∧
    lookup a (cleanup st a).roomStates = none ∧
    ∀ (content : Content) (post : Except String APIMessage)
      (persistRes : Except String Unit) (now : Nat),
      (sendMessage (cleanup st a) a content post persistRes now).result =
          Except.error SendError.notFound ∧
      (sendMessage (cleanup st a) a content post persistRes now).networkCalled =
          false := by
  have hag : lookup a (cleanup st a).agents = none := by
    rw [cleanup_agents, lookup_eraseKey_self]
  refine ⟨hag, ?_, ?_⟩
  · rw [cleanup_roomStates, lookup_eraseKey_self]
  · intro content post persistRes now
    rw [sendMessage_eq_noAgent content post persistRes now hag]
    exact ⟨rfl, rfl⟩

/-- C9: `cleanup` of any single agent clears the whole handler set — a
global reset, not scoped to that agent's room: afterwards no registered
handler remains, including handlers serving other agents' rooms. -/
theorem claim_C9_cleanup_clears_all_handlers (st : ManagerState) (a : String) :
    (cleanup st a).messageHandlers = [] := rfl
